import Mathlib

/-!
Verification development for the LOCUS `SpotFrontend` scan-processing pipeline
(`src/spot_frontend/src/SpotFrontend.cc`).

The per-scan callback `SpotFrontend::LidarCallback` is embedded as a pure
state-transition function producing, besides the successor state, a trace of
the calls it makes into its external collaborators (filter, scan-to-scan
estimator, localizer, mapper, publishers).  External geometry libraries
(tf, geometry_utils, gtsam) are embedded as follows: the tf rigid-transform
algebra used by `SpotFrontend::GetOdometryDelta` is modelled concretely with
rational quaternion/vector components, while the pose-delta norm and
quaternion angle used by the keyframe threshold test (gtsam calls) are kept
as an abstract `Geometry` interface, since only their comparison against the
configured thresholds influences control flow.
-/

namespace SpotFrontend

/-! ### tf rigid-transform algebra (for `GetOdometryDelta`)

`tf::Transform` stores a rotation and an origin vector.  We model the
rotation as a quaternion with rational components.  `inverseTimes` is
embedded from the tf library semantics: the rotation of the result is
`conj(this.rotation) * t.rotation` and the origin is the inverse rotation
applied to `t.origin - this.origin`. -/

structure Quat where
  w : ℚ
  x : ℚ
  y : ℚ
  z : ℚ
  deriving DecidableEq

/-- Hamilton product of two quaternions. -/
def Quat.mul (a b : Quat) : Quat :=
  ⟨a.w * b.w - a.x * b.x - a.y * b.y - a.z * b.z,
   a.w * b.x + a.x * b.w + a.y * b.z - a.z * b.y,
   a.w * b.y - a.x * b.z + a.y * b.w + a.z * b.x,
   a.w * b.z + a.x * b.y - a.y * b.x + a.z * b.w⟩

/-- Quaternion conjugate. -/
def Quat.conj (a : Quat) : Quat := ⟨a.w, -a.x, -a.y, -a.z⟩

/-- The identity quaternion. -/
def Quat.one : Quat := ⟨1, 0, 0, 0⟩

/-- Squared norm of a quaternion; a rotation quaternion satisfies `normSq = 1`. -/
def Quat.normSq (a : Quat) : ℚ := a.w ^ 2 + a.x ^ 2 + a.y ^ 2 + a.z ^ 2

structure Vec3 where
  x : ℚ
  y : ℚ
  z : ℚ
  deriving DecidableEq

def Vec3.add (a b : Vec3) : Vec3 := ⟨a.x + b.x, a.y + b.y, a.z + b.z⟩

def Vec3.sub (a b : Vec3) : Vec3 := ⟨a.x - b.x, a.y - b.y, a.z - b.z⟩

def Vec3.neg (a : Vec3) : Vec3 := ⟨-a.x, -a.y, -a.z⟩

def Vec3.zero : Vec3 := ⟨0, 0, 0⟩

/-- Apply the rotation represented by quaternion `q` to vector `v`:
the vector part of `q * (0, v) * conj q`. -/
def quatApply (q : Quat) (v : Vec3) : Vec3 :=
  let p : Quat := ⟨0, v.x, v.y, v.z⟩
  let r := (q.mul p).mul q.conj
  ⟨r.x, r.y, r.z⟩

/-- Model of `tf::Transform`: a rotation quaternion and an origin vector. -/
structure TFTransform where
  rotation : Quat
  origin : Vec3
  deriving DecidableEq

/-- `tf::Transform::inverseTimes(t)`: rotation `conj(rot) * t.rot`, origin
the inverse rotation applied to `t.origin - origin`. -/
def TFTransform.inverseTimes (a b : TFTransform) : TFTransform :=
  ⟨a.rotation.conj.mul b.rotation, quatApply a.rotation.conj (b.origin.sub a.origin)⟩

/-- Composition of rigid transforms (`tf::Transform::operator*`). -/
def TFTransform.comp (a b : TFTransform) : TFTransform :=
  ⟨a.rotation.mul b.rotation, (quatApply a.rotation b.origin).add a.origin⟩

/-- Inverse of a rigid transform (`tf::Transform::inverse`). -/
def TFTransform.inv (a : TFTransform) : TFTransform :=
  ⟨a.rotation.conj, (quatApply a.rotation.conj a.origin).neg⟩

/-- The identity rigid transform (zero translation, identity rotation). -/
def TFTransform.idT : TFTransform := ⟨Quat.one, Vec3.zero⟩

/-- `SpotFrontend::GetOdometryDelta`: returns
`odometry_pose_previous_.inverseTimes(odometry_pose)`. -/
def GetOdometryDelta (odometry_pose_previous odometry_pose : TFTransform) : TFTransform :=
  odometry_pose_previous.inverseTimes odometry_pose

/-! ### The per-scan pipeline (`SpotFrontend::LidarCallback`)

The numerical geometry consumed by the keyframe threshold test is external
library code (geometry_utils `PoseDelta`, gtsam translation norm and
quaternion extraction), kept abstract in the `Geometry` interface below.
Poses are an abstract type `Pose`; scalar threshold values live in a linear
order `α`. -/

/-- Interface to the external geometry libraries.
`poseDelta` models `ToGtsam(geometry_utils::PoseDelta(a, b))`;
`transNorm` models `delta.translation().norm()` (Euclidean norm);
`rotAngleAbs` models `fabs(2*acos(delta.rotation().toQuaternion().w()))`;
`inverseTimes` models `tf::Transform::inverseTimes`;
`identity` models `gu::Transform3::Identity()`. -/
structure Geometry (Pose : Type) (α : Type) where
  poseDelta : Pose → Pose → Pose
  transNorm : Pose → α
  rotAngleAbs : Pose → α
  inverseTimes : Pose → Pose → Pose
  identity : Pose

/-- Configuration parameters of `SpotFrontend` consumed by `LidarCallback`. -/
structure Params (α : Type) where
  b_verbose : Bool
  translation_threshold_kf : α
  rotation_threshold_kf : α
  number_of_points_open_space : Nat
  map_publishment_meters : Nat
  b_publish_map : Bool
  b_use_odometry_integration : Bool
  b_run_with_gt_point_cloud : Bool
  b_enable_computation_time_profiling : Bool
  publish_diagnostics : Bool

/-- The mutable member state of `SpotFrontend` touched by `LidarCallback`. -/
structure FrontendState (Pose : Type) where
  b_add_first_scan_to_key : Bool
  counter : Nat
  b_pcld_received : Bool
  pcld_seq_prev : Nat
  b_is_open_space : Bool
  b_odometry_has_been_received : Bool
  odometry_pose_previous : Pose
  last_keyframe_pose : Pose

/-- The fields of an incoming point-cloud message read by the callback:
header sequence number and point count (`msg->width`), both uint32. -/
structure ScanInput where
  seq : Nat
  width : Nat

/-- Per-scan responses of the external collaborators:
the TransformBuffer lookup result (`none` models an extrapolation failure,
after which the scan is not processed), the estimator convergence flag,
the two diagnostics severity levels, the estimator incremental estimate,
the localizer integrated estimate, and the subscriber count of the
base-frame point-cloud publisher. -/
structure ScanOracle (Pose : Type) where
  lookupTransform : Option Pose
  updateEstimateOk : Bool
  odometryDiagLevel : Nat
  localizationDiagLevel : Nat
  incrementalEstimate : Pose
  integratedEstimate : Pose
  numSubscribers : Nat

/-- Trace of the calls `LidarCallback` makes into its collaborators. -/
inductive Effect (Pose : Type) where
  | warnScanDropped
  | setOdometryDelta (delta : Pose)
  | filterScan (isOpenSpace : Bool)
  | setLidar
  | updateEstimate
  | publishOdometryAll
  | transformToFixedFrame
  | insertPoints
  | updateTimestamp
  | publishPoseNoUpdate
  | motionUpdate (delta : Pose)
  | approxNearestNeighbors
  | transformToSensorFrame
  | measurementUpdate
  | publishLocalizationAll
  | publishMap
  | publishBaseFrameCloud
  | publishDiagnostics
  deriving DecidableEq

/-- The keyframe threshold test of `LidarCallback` (source lines 296-300):
`delta.translation().norm() > translation_threshold_kf_ ||`
`fabs(2*acos(delta.rotation().toQuaternion().w())) > rotation_threshold_kf_`
on `delta = ToGtsam(PoseDelta(last_keyframe_pose_, current_pose))`. -/
def keyframeCond {Pose α : Type} [LinearOrder α] (G : Geometry Pose α) (P : Params α)
    (lastPose currentPose : Pose) : Prop :=
  G.transNorm (G.poseDelta lastPose currentPose) > P.translation_threshold_kf ∨
  G.rotAngleAbs (G.poseDelta lastPose currentPose) > P.rotation_threshold_kf

instance {Pose α : Type} [LinearOrder α] (G : Geometry Pose α) (P : Params α)
    (a b : Pose) : Decidable (keyframeCond G P a b) := by
  unfold keyframeCond
  exact inferInstance

/-- The part of `LidarCallback` from the filter stage onward (source lines
242-340): filter and hand the scan to the estimator, run `UpdateEstimate`
(resetting the bootstrap flag on failure), publish odometry on OK
diagnostics, then either take the bootstrap branch (direct insertion) or the
steady branch (motion update, neighbor search, measurement update, keyframe
threshold test with map-publish counter). -/
def processScan {Pose α : Type} [LinearOrder α] (G : Geometry Pose α) (P : Params α)
    (s : FrontendState Pose) (o : ScanOracle Pose) :
    FrontendState Pose × List (Effect Pose) :=
  let e0 : List (Effect Pose) :=
    [Effect.filterScan s.b_is_open_space, Effect.setLidar, Effect.updateEstimate]
  let s1 := if o.updateEstimateOk then s else { s with b_add_first_scan_to_key := true }
  let e1 := e0 ++ (if o.odometryDiagLevel = 0 then [Effect.publishOdometryAll] else [])
  if s1.b_add_first_scan_to_key && !P.b_run_with_gt_point_cloud then
    ({ s1 with b_add_first_scan_to_key := false,
               last_keyframe_pose := o.integratedEstimate },
     e1 ++ [Effect.transformToFixedFrame, Effect.insertPoints,
            Effect.updateTimestamp, Effect.publishPoseNoUpdate])
  else
    let e2 := e1 ++ [Effect.motionUpdate o.incrementalEstimate, Effect.transformToFixedFrame,
                     Effect.approxNearestNeighbors, Effect.transformToSensorFrame,
                     Effect.measurementUpdate]
    let e3 := e2 ++ (if o.localizationDiagLevel = 0 then [Effect.publishLocalizationAll] else [])
    let r :=
      if keyframeCond G P s1.last_keyframe_pose o.integratedEstimate then
        let e4 := e3 ++ [Effect.motionUpdate G.identity, Effect.transformToFixedFrame,
                         Effect.insertPoints]
        if P.b_publish_map then
          if s1.counter + 1 = P.map_publishment_meters then
            ({ s1 with counter := 0, last_keyframe_pose := o.integratedEstimate },
             e4 ++ [Effect.publishMap])
          else
            ({ s1 with counter := s1.counter + 1, last_keyframe_pose := o.integratedEstimate },
             e4)
        else
          ({ s1 with last_keyframe_pose := o.integratedEstimate }, e4)
      else (s1, e3)
    let r2 := (r.1, r.2 ++ (if o.numSubscribers ≠ 0 then [Effect.publishBaseFrameCloud] else []))
    (r2.1, r2.2 ++ (if P.publish_diagnostics then [Effect.publishDiagnostics] else []))

/-- `SpotFrontend::LidarCallback` (source lines 194-340): sequence-continuity
check, open-space classification, optional odometry integration (baseline
recording on the first cycle, delta forwarding afterwards; an extrapolation
failure of the TransformBuffer lookup — modelled as `lookupTransform = none`
per the spec contract, the lookup itself being library code — aborts
processing of the scan), then `processScan`.  Sequence numbers are uint32,
so the stored-previous-plus-one comparison wraps modulo `2^32`. -/
def lidarCallback {Pose α : Type} [LinearOrder α] (G : Geometry Pose α) (P : Params α)
    (s : FrontendState Pose) (msg : ScanInput) (o : ScanOracle Pose) :
    FrontendState Pose × List (Effect Pose) :=
  let seqr : FrontendState Pose × List (Effect Pose) :=
    if !s.b_pcld_received then
      ({ s with pcld_seq_prev := msg.seq, b_pcld_received := true }, [])
    else
      ({ s with pcld_seq_prev := msg.seq },
       if msg.seq ≠ (s.pcld_seq_prev + 1) % 4294967296 then [Effect.warnScanDropped] else [])
  let s1 := { seqr.1 with b_is_open_space := msg.width > P.number_of_points_open_space }
  let e1 := seqr.2
  if P.b_use_odometry_integration then
    match o.lookupTransform with
    | none => (s1, e1)
    | some tfPose =>
      if !s1.b_odometry_has_been_received then
        ({ s1 with odometry_pose_previous := tfPose, b_odometry_has_been_received := true }, e1)
      else
        let d := G.inverseTimes s1.odometry_pose_previous tfPose
        let s2 := { s1 with odometry_pose_previous := tfPose }
        let r := processScan G P s2 o
        (r.1, e1 ++ Effect.setOdometryDelta d :: r.2)
  else
    let r := processScan G P s1 o
    (r.1, e1 ++ r.2)

/-- The member state established by the `SpotFrontend` constructor (source
lines 12-29): bootstrap flag set, counter zero, no scan received yet, no
odometry received yet, not open space.  `pcld_seq_prev_`,
`odometry_pose_previous_` and `last_keyframe_pose_` are not initialized by
the constructor, so they are parameters here. -/
def initState {Pose : Type} (seq0 : Nat) (odomPose0 keyframePose0 : Pose) :
    FrontendState Pose :=
  { b_add_first_scan_to_key := true
    counter := 0
    b_pcld_received := false
    pcld_seq_prev := seq0
    b_is_open_space := false
    b_odometry_has_been_received := false
    odometry_pose_previous := odomPose0
    last_keyframe_pose := keyframePose0 }

/-! ### Characterization lemmas for `processScan` -/

/-- Bootstrap branch: if the bootstrap flag is pending (or the estimator just
failed) and ground-truth mode is off, `processScan` performs the direct
insertion and resets the flag. -/
theorem processScan_bootstrap {Pose α : Type} [LinearOrder α] (G : Geometry Pose α)
    (P : Params α) (s : FrontendState Pose) (o : ScanOracle Pose)
    (hb : s.b_add_first_scan_to_key = true ∨ o.updateEstimateOk = false)
    (hgt : P.b_run_with_gt_point_cloud = false) :
    processScan G P s o =
      ({ s with b_add_first_scan_to_key := false,
                last_keyframe_pose := o.integratedEstimate },
       [Effect.filterScan s.b_is_open_space, Effect.setLidar, Effect.updateEstimate] ++
       (if o.odometryDiagLevel = 0 then [Effect.publishOdometryAll] else []) ++
       [Effect.transformToFixedFrame, Effect.insertPoints, Effect.updateTimestamp,
        Effect.publishPoseNoUpdate]) := by
  rcases hb with hb | hb
  · by_cases hok : o.updateEstimateOk <;> simp [processScan, hb, hok, hgt]
  · by_cases hflag : s.b_add_first_scan_to_key <;> simp [processScan, hb, hflag, hgt]

/-- Steady branch with the keyframe condition satisfied: the scan is inserted
into the map, the last keyframe pose is updated, and the publish counter is
advanced (with reset at the configured threshold). -/
theorem processScan_steady_insert {Pose α : Type} [LinearOrder α] (G : Geometry Pose α)
    (P : Params α) (s : FrontendState Pose) (o : ScanOracle Pose)
    (hok : o.updateEstimateOk = true) (hflag : s.b_add_first_scan_to_key = false)
    (hc : keyframeCond G P s.last_keyframe_pose o.integratedEstimate) :
    processScan G P s o =
      ({ s with
          counter := (if P.b_publish_map then
            (if s.counter + 1 = P.map_publishment_meters then 0 else s.counter + 1)
            else s.counter),
          last_keyframe_pose := o.integratedEstimate },
       [Effect.filterScan s.b_is_open_space, Effect.setLidar, Effect.updateEstimate] ++
       (if o.odometryDiagLevel = 0 then [Effect.publishOdometryAll] else []) ++
       [Effect.motionUpdate o.incrementalEstimate, Effect.transformToFixedFrame,
        Effect.approxNearestNeighbors, Effect.transformToSensorFrame,
        Effect.measurementUpdate] ++
       (if o.localizationDiagLevel = 0 then [Effect.publishLocalizationAll] else []) ++
       [Effect.motionUpdate G.identity, Effect.transformToFixedFrame, Effect.insertPoints] ++
       (if P.b_publish_map ∧ s.counter + 1 = P.map_publishment_meters
        then [Effect.publishMap] else []) ++
       (if o.numSubscribers ≠ 0 then [Effect.publishBaseFrameCloud] else []) ++
       (if P.publish_diagnostics then [Effect.publishDiagnostics] else [])) := by
  by_cases hp : P.b_publish_map <;>
    by_cases hcnt : s.counter + 1 = P.map_publishment_meters <;>
      simp [processScan, hok, hflag, hc, hp, hcnt, List.append_assoc]

/-- Steady branch with the keyframe condition not satisfied: the state is
returned unchanged and no insertion happens. -/
theorem processScan_steady_noInsert {Pose α : Type} [LinearOrder α] (G : Geometry Pose α)
    (P : Params α) (s : FrontendState Pose) (o : ScanOracle Pose)
    (hok : o.updateEstimateOk = true) (hflag : s.b_add_first_scan_to_key = false)
    (hc : ¬ keyframeCond G P s.last_keyframe_pose o.integratedEstimate) :
    processScan G P s o =
      (s,
       [Effect.filterScan s.b_is_open_space, Effect.setLidar, Effect.updateEstimate] ++
       (if o.odometryDiagLevel = 0 then [Effect.publishOdometryAll] else []) ++
       [Effect.motionUpdate o.incrementalEstimate, Effect.transformToFixedFrame,
        Effect.approxNearestNeighbors, Effect.transformToSensorFrame,
        Effect.measurementUpdate] ++
       (if o.localizationDiagLevel = 0 then [Effect.publishLocalizationAll] else []) ++
       (if o.numSubscribers ≠ 0 then [Effect.publishBaseFrameCloud] else []) ++
       (if P.publish_diagnostics then [Effect.publishDiagnostics] else [])) := by
  simp [processScan, hok, hflag, hc, List.append_assoc]

/-- `processScan` never emits the scan-dropped warning (it is emitted only by
the sequence-continuity check preceding it). -/
theorem processScan_no_warn {Pose α : Type} [LinearOrder α] (G : Geometry Pose α)
    (P : Params α) (s : FrontendState Pose) (o : ScanOracle Pose) :
    Effect.warnScanDropped ∉ (processScan G P s o).2 := by
  simp only [processScan]
  split_ifs <;> simp

/-- `processScan` always hands the filtered scan to the estimator. -/
theorem processScan_setLidar_mem {Pose α : Type} [LinearOrder α] (G : Geometry Pose α)
    (P : Params α) (s : FrontendState Pose) (o : ScanOracle Pose) :
    Effect.setLidar ∈ (processScan G P s o).2 := by
  simp only [processScan]
  split_ifs <;> simp

/-- `processScan` always runs the estimator update. -/
theorem processScan_updateEstimate_mem {Pose α : Type} [LinearOrder α] (G : Geometry Pose α)
    (P : Params α) (s : FrontendState Pose) (o : ScanOracle Pose) :
    Effect.updateEstimate ∈ (processScan G P s o).2 := by
  simp only [processScan]
  split_ifs <;> simp

/-- `processScan` leaves the stored previous sequence number unchanged. -/
theorem processScan_pcld_seq_prev {Pose α : Type} [LinearOrder α] (G : Geometry Pose α)
    (P : Params α) (s : FrontendState Pose) (o : ScanOracle Pose) :
    (processScan G P s o).1.pcld_seq_prev = s.pcld_seq_prev := by
  simp only [processScan]
  split_ifs <;> simp

/-- `processScan` leaves the stored previous odometry pose unchanged. -/
theorem processScan_odom_prev {Pose α : Type} [LinearOrder α] (G : Geometry Pose α)
    (P : Params α) (s : FrontendState Pose) (o : ScanOracle Pose) :
    (processScan G P s o).1.odometry_pose_previous = s.odometry_pose_previous := by
  simp only [processScan]
  split_ifs <;> simp

/-- Facts about a steady-state keyframe insertion: the bootstrap flag stays
cleared, the last keyframe pose becomes the integrated estimate, the counter
advances with reset at the threshold, and `PublishMap` is emitted exactly
when the threshold is reached. -/
theorem processScan_steady_insert_facts {Pose α : Type} [LinearOrder α] [DecidableEq Pose]
    (G : Geometry Pose α) (P : Params α) (s : FrontendState Pose) (o : ScanOracle Pose)
    (hok : o.updateEstimateOk = true) (hflag : s.b_add_first_scan_to_key = false)
    (hc : keyframeCond G P s.last_keyframe_pose o.integratedEstimate)
    (hp : P.b_publish_map = true) :
    (processScan G P s o).1.b_add_first_scan_to_key = false ∧
    (processScan G P s o).1.last_keyframe_pose = o.integratedEstimate ∧
    ((processScan G P s o).1.counter =
      (if s.counter + 1 = P.map_publishment_meters then 0 else s.counter + 1)) ∧
    ((processScan G P s o).2.count Effect.publishMap =
      (if s.counter + 1 = P.map_publishment_meters then 1 else 0)) := by
  rw [processScan_steady_insert G P s o hok hflag hc]
  refine ⟨hflag, rfl, by simp [hp], ?_⟩
  by_cases hcnt : s.counter + 1 = P.map_publishment_meters <;>
    simp [hp, hcnt, List.count_append, List.count_cons, beq_iff_eq] <;>
    split_ifs <;>
    simp [List.count_cons, beq_iff_eq]

/-! ### Concrete fixtures used by witness theorems -/

/-- Trivial geometry over `Unit` poses whose delta norm and angle are both 0. -/
def geomW0 : Geometry Unit Nat :=
  { poseDelta := fun _ _ => (), transNorm := fun _ => 0, rotAngleAbs := fun _ => 0,
    inverseTimes := fun _ _ => (), identity := () }

/-- Trivial geometry over `Unit` poses whose delta translation norm is 1. -/
def geomW1 : Geometry Unit Nat :=
  { geomW0 with transNorm := fun _ => 1 }

def paramsW : Params Nat :=
  { b_verbose := false, translation_threshold_kf := 0, rotation_threshold_kf := 0,
    number_of_points_open_space := 100, map_publishment_meters := 3, b_publish_map := true,
    b_use_odometry_integration := false, b_run_with_gt_point_cloud := false,
    b_enable_computation_time_profiling := false, publish_diagnostics := false }

def stateSteadyW : FrontendState Unit :=
  { b_add_first_scan_to_key := false, counter := 0, b_pcld_received := true,
    pcld_seq_prev := 10, b_is_open_space := false, b_odometry_has_been_received := false,
    odometry_pose_previous := (), last_keyframe_pose := () }

def oracleW : ScanOracle Unit :=
  { lookupTransform := some (), updateEstimateOk := true, odometryDiagLevel := 0,
    localizationDiagLevel := 0, incrementalEstimate := (), integratedEstimate := (),
    numSubscribers := 0 }

def msgW : ScanInput := { seq := 11, width := 3 }

/-! ### Claim theorems -/

/-- C8: the odometry delta of two absolute poses equals
`inverse(previousPose) ∘ currentPose`, and for every pose with a unit
rotation quaternion the delta of the pose with itself is the identity
transform (zero translation, identity rotation). -/
theorem getOdometryDelta_inverse_compose :
    (∀ a b : TFTransform, GetOdometryDelta a b = (TFTransform.inv a).comp b) ∧
    (∀ p : TFTransform, p.rotation.normSq = 1 → GetOdometryDelta p p = TFTransform.idT) := by
  constructor
  · intro a b
    obtain ⟨⟨aw, ax, ay, az⟩, ⟨ax1, ay1, az1⟩⟩ := a
    obtain ⟨⟨bw, bx, byy, bz⟩, ⟨bx1, by1, bz1⟩⟩ := b
    simp only [GetOdometryDelta, TFTransform.inverseTimes, TFTransform.comp, TFTransform.inv,
      quatApply, Quat.mul, Quat.conj, Vec3.sub, Vec3.add, Vec3.neg, TFTransform.mk.injEq,
      Quat.mk.injEq, Vec3.mk.injEq]
    and_intros <;> ring
  · intro p hp
    obtain ⟨⟨w, x, y, z⟩, ⟨vx, vy, vz⟩⟩ := p
    simp only [Quat.normSq] at hp
    simp only [GetOdometryDelta, TFTransform.inverseTimes, TFTransform.idT, Quat.one,
      Vec3.zero, quatApply, Quat.mul, Quat.conj, Vec3.sub, TFTransform.mk.injEq,
      Quat.mk.injEq, Vec3.mk.injEq]
    and_intros <;> first | linear_combination hp | ring

/-- C8 witness: a concrete unit quaternion pose, whose self-delta is the
identity transform. -/
theorem getOdometryDelta_inverse_compose_witness :
    Quat.normSq ⟨3/5, 4/5, 0, 0⟩ = 1 ∧
    GetOdometryDelta ⟨⟨3/5, 4/5, 0, 0⟩, ⟨1, 2, 3⟩⟩ ⟨⟨3/5, 4/5, 0, 0⟩, ⟨1, 2, 3⟩⟩ =
      TFTransform.idT :=
  ⟨by norm_num [Quat.normSq],
   getOdometryDelta_inverse_compose.2 ⟨⟨3/5, 4/5, 0, 0⟩, ⟨1, 2, 3⟩⟩
     (by norm_num [Quat.normSq])⟩

/-- C1: for a steady-state scan, keyframe insertion (map insert plus update
of the last keyframe pose) occurs iff the translation norm of the pose delta
strictly exceeds the translation threshold OR the absolute quaternion
rotation angle strictly exceeds the rotation threshold. -/
theorem keyframe_insertion_iff_threshold {Pose α : Type} [LinearOrder α]
    (G : Geometry Pose α) (P : Params α) (s : FrontendState Pose) (o : ScanOracle Pose)
    (hok : o.updateEstimateOk = true) (hsteady : s.b_add_first_scan_to_key = false) :
    (Effect.insertPoints ∈ (processScan G P s o).2 ↔
      keyframeCond G P s.last_keyframe_pose o.integratedEstimate) ∧
    (keyframeCond G P s.last_keyframe_pose o.integratedEstimate →
      (processScan G P s o).1.last_keyframe_pose = o.integratedEstimate) := by
  by_cases hc : keyframeCond G P s.last_keyframe_pose o.integratedEstimate
  · rw [processScan_steady_insert G P s o hok hsteady hc]
    refine ⟨by simp [hc], fun _ => rfl⟩
  · rw [processScan_steady_noInsert G P s o hok hsteady hc]
    refine ⟨?_, fun h => absurd h hc⟩
    simp only [hc, iff_false]
    split_ifs <;> simp

/-- C1 witness: concrete steady state and oracle where the threshold
condition holds and insertion is observed. -/
theorem keyframe_insertion_iff_threshold_witness :
    oracleW.updateEstimateOk = true ∧ stateSteadyW.b_add_first_scan_to_key = false ∧
    ((Effect.insertPoints ∈ (processScan geomW1 paramsW stateSteadyW oracleW).2 ↔
        keyframeCond geomW1 paramsW stateSteadyW.last_keyframe_pose
          oracleW.integratedEstimate) ∧
     (keyframeCond geomW1 paramsW stateSteadyW.last_keyframe_pose
          oracleW.integratedEstimate →
        (processScan geomW1 paramsW stateSteadyW oracleW).1.last_keyframe_pose =
          oracleW.integratedEstimate)) :=
  ⟨rfl, rfl, keyframe_insertion_iff_threshold geomW1 paramsW stateSteadyW oracleW rfl rfl⟩

/-- C6: for a steady-state scan with neither threshold exceeded, no map
insertion occurs and the last keyframe pose and the publication counter are
unchanged (and no map publish is triggered). -/
theorem no_keyframe_below_thresholds {Pose α : Type} [LinearOrder α]
    (G : Geometry Pose α) (P : Params α) (s : FrontendState Pose) (o : ScanOracle Pose)
    (hok : o.updateEstimateOk = true) (hsteady : s.b_add_first_scan_to_key = false)
    (hc : ¬ keyframeCond G P s.last_keyframe_pose o.integratedEstimate) :
    Effect.insertPoints ∉ (processScan G P s o).2 ∧
    (processScan G P s o).1.last_keyframe_pose = s.last_keyframe_pose ∧
    (processScan G P s o).1.counter = s.counter ∧
    Effect.publishMap ∉ (processScan G P s o).2 := by
  rw [processScan_steady_noInsert G P s o hok hsteady hc]
  refine ⟨?_, rfl, rfl, ?_⟩ <;> (split_ifs <;> simp)

/-- C6 witness: concrete steady state and oracle where the threshold
condition fails and the state is left unchanged. -/
theorem no_keyframe_below_thresholds_witness :
    oracleW.updateEstimateOk = true ∧ stateSteadyW.b_add_first_scan_to_key = false ∧
    ¬ keyframeCond geomW0 paramsW stateSteadyW.last_keyframe_pose
        oracleW.integratedEstimate ∧
    (Effect.insertPoints ∉ (processScan geomW0 paramsW stateSteadyW oracleW).2 ∧
     (processScan geomW0 paramsW stateSteadyW oracleW).1.last_keyframe_pose =
       stateSteadyW.last_keyframe_pose ∧
     (processScan geomW0 paramsW stateSteadyW oracleW).1.counter = stateSteadyW.counter ∧
     Effect.publishMap ∉ (processScan geomW0 paramsW stateSteadyW oracleW).2) :=
  ⟨rfl, rfl, by decide,
   no_keyframe_below_thresholds geomW0 paramsW stateSteadyW oracleW rfl rfl (by decide)⟩

/-- C2: the very first scan delivered after construction (pure-LO mode, no
ground-truth map) takes the bootstrap path: the raw scan is transformed to
the fixed frame and inserted into the mapper directly, no motion update and
no measurement update are performed, the last keyframe pose is set to the
localizer integrated estimate, a pose-no-update signal is published, and
afterwards the engine is in the steady state (bootstrap flag cleared). -/
theorem first_scan_bootstrap {Pose α : Type} [LinearOrder α]
    (G : Geometry Pose α) (P : Params α) (seq0 : Nat) (p q : Pose)
    (msg : ScanInput) (o : ScanOracle Pose)
    (hodo : P.b_use_odometry_integration = false)
    (hgt : P.b_run_with_gt_point_cloud = false) :
    Effect.insertPoints ∈ (lidarCallback G P (initState seq0 p q) msg o).2 ∧
    Effect.transformToFixedFrame ∈ (lidarCallback G P (initState seq0 p q) msg o).2 ∧
    Effect.publishPoseNoUpdate ∈ (lidarCallback G P (initState seq0 p q) msg o).2 ∧
    (∀ d, Effect.motionUpdate d ∉ (lidarCallback G P (initState seq0 p q) msg o).2) ∧
    Effect.measurementUpdate ∉ (lidarCallback G P (initState seq0 p q) msg o).2 ∧
    (lidarCallback G P (initState seq0 p q) msg o).1.last_keyframe_pose =
      o.integratedEstimate ∧
    (lidarCallback G P (initState seq0 p q) msg o).1.b_add_first_scan_to_key = false := by
  have h1 : lidarCallback G P (initState seq0 p q) msg o =
      processScan G P
        { b_add_first_scan_to_key := true, counter := 0, b_pcld_received := true,
          pcld_seq_prev := msg.seq,
          b_is_open_space := decide (msg.width > P.number_of_points_open_space),
          b_odometry_has_been_received := false, odometry_pose_previous := p,
          last_keyframe_pose := q } o := by
    simp [lidarCallback, initState, hodo]
  rw [h1, processScan_bootstrap G P _ o (Or.inl rfl) hgt]
  refine ⟨by simp, by simp, by simp, fun d => ?_, ?_, rfl, rfl⟩ <;> (split_ifs <;> simp)

/-- C2 witness: concrete first scan in pure-LO mode. -/
theorem first_scan_bootstrap_witness :
    paramsW.b_use_odometry_integration = false ∧
    paramsW.b_run_with_gt_point_cloud = false ∧
    (Effect.insertPoints ∈ (lidarCallback geomW0 paramsW (initState 0 () ()) msgW oracleW).2 ∧
     Effect.transformToFixedFrame ∈
       (lidarCallback geomW0 paramsW (initState 0 () ()) msgW oracleW).2 ∧
     Effect.publishPoseNoUpdate ∈
       (lidarCallback geomW0 paramsW (initState 0 () ()) msgW oracleW).2 ∧
     (∀ d, Effect.motionUpdate d ∉
       (lidarCallback geomW0 paramsW (initState 0 () ()) msgW oracleW).2) ∧
     Effect.measurementUpdate ∉
       (lidarCallback geomW0 paramsW (initState 0 () ()) msgW oracleW).2 ∧
     (lidarCallback geomW0 paramsW (initState 0 () ()) msgW oracleW).1.last_keyframe_pose =
       oracleW.integratedEstimate ∧
     (lidarCallback geomW0 paramsW (initState 0 () ()) msgW
         oracleW).1.b_add_first_scan_to_key = false) :=
  ⟨rfl, rfl, first_scan_bootstrap geomW0 paramsW 0 () () msgW oracleW rfl rfl⟩

def oracleFailW : ScanOracle Unit :=
  { oracleW with updateEstimateOk := false }

/-- C3 counterexample: from a steady state, `UpdateEstimate() = false` on
scan k makes scan k itself take the bootstrap path (pose-no-update
published, no measurement update on scan k), and the next scan k+1 is then
processed in the steady state (measurement update performed, no
pose-no-update) — refuting the claim that scan k is completed in the steady
state and that scan k+1 is the one treated as a fresh bootstrap. -/
theorem estimator_failure_counterexample :
    oracleFailW.updateEstimateOk = false ∧
    stateSteadyW.b_add_first_scan_to_key = false ∧
    Effect.measurementUpdate ∉ (processScan geomW0 paramsW stateSteadyW oracleFailW).2 ∧
    Effect.publishPoseNoUpdate ∈ (processScan geomW0 paramsW stateSteadyW oracleFailW).2 ∧
    Effect.measurementUpdate ∈
      (processScan geomW0 paramsW
        (processScan geomW0 paramsW stateSteadyW oracleFailW).1 oracleW).2 ∧
    Effect.publishPoseNoUpdate ∉
      (processScan geomW0 paramsW
        (processScan geomW0 paramsW stateSteadyW oracleFailW).1 oracleW).2 := by
  decide

/-- C3 amended: if `UpdateEstimate()` returns false while processing scan k
(ground-truth mode off), then scan k itself — not scan k+1 — is treated as
a fresh bootstrap, regardless of prior state: direct map insertion, no
motion or measurement update, pose-no-update published, and the bootstrap
flag is cleared so the next scan is processed in the steady state. -/
theorem estimator_failure_bootstraps_same_scan {Pose α : Type} [LinearOrder α]
    (G : Geometry Pose α) (P : Params α) (s : FrontendState Pose) (o : ScanOracle Pose)
    (hfail : o.updateEstimateOk = false) (hgt : P.b_run_with_gt_point_cloud = false) :
    Effect.insertPoints ∈ (processScan G P s o).2 ∧
    Effect.publishPoseNoUpdate ∈ (processScan G P s o).2 ∧
    (∀ d, Effect.motionUpdate d ∉ (processScan G P s o).2) ∧
    Effect.measurementUpdate ∉ (processScan G P s o).2 ∧
    (processScan G P s o).1.b_add_first_scan_to_key = false ∧
    (processScan G P s o).1.last_keyframe_pose = o.integratedEstimate := by
  rw [processScan_bootstrap G P s o (Or.inr hfail) hgt]
  refine ⟨by simp, by simp, fun d => ?_, ?_, rfl, rfl⟩ <;> (split_ifs <;> simp)

/-- C3 amended witness: concrete steady state with estimator failure. -/
theorem estimator_failure_bootstraps_same_scan_witness :
    oracleFailW.updateEstimateOk = false ∧
    paramsW.b_run_with_gt_point_cloud = false ∧
    (Effect.insertPoints ∈ (processScan geomW0 paramsW stateSteadyW oracleFailW).2 ∧
     Effect.publishPoseNoUpdate ∈ (processScan geomW0 paramsW stateSteadyW oracleFailW).2 ∧
     (∀ d, Effect.motionUpdate d ∉ (processScan geomW0 paramsW stateSteadyW oracleFailW).2) ∧
     Effect.measurementUpdate ∉ (processScan geomW0 paramsW stateSteadyW oracleFailW).2 ∧
     (processScan geomW0 paramsW stateSteadyW oracleFailW).1.b_add_first_scan_to_key =
       false ∧
     (processScan geomW0 paramsW stateSteadyW oracleFailW).1.last_keyframe_pose =
       oracleFailW.integratedEstimate) :=
  ⟨rfl, rfl, estimator_failure_bootstraps_same_scan geomW0 paramsW stateSteadyW oracleFailW
    rfl rfl⟩

/-- C4: with odometry integration enabled, a TransformBuffer lookup failure
at the scan timestamp (extrapolation error) aborts processing of that scan
alone: no map insertion, no motion or measurement update, no pose
publication, and no mutation of the KeyframeState (last keyframe pose,
bootstrap flag, publication counter). -/
theorem extrapolation_failure_skips_scan {Pose α : Type} [LinearOrder α]
    (G : Geometry Pose α) (P : Params α) (s : FrontendState Pose)
    (msg : ScanInput) (o : ScanOracle Pose)
    (hodo : P.b_use_odometry_integration = true)
    (hlook : o.lookupTransform = none) :
    (lidarCallback G P s msg o).1.last_keyframe_pose = s.last_keyframe_pose ∧
    (lidarCallback G P s msg o).1.b_add_first_scan_to_key = s.b_add_first_scan_to_key ∧
    (lidarCallback G P s msg o).1.counter = s.counter ∧
    Effect.insertPoints ∉ (lidarCallback G P s msg o).2 ∧
    (∀ d, Effect.motionUpdate d ∉ (lidarCallback G P s msg o).2) ∧
    Effect.measurementUpdate ∉ (lidarCallback G P s msg o).2 ∧
    Effect.publishPoseNoUpdate ∉ (lidarCallback G P s msg o).2 ∧
    Effect.publishMap ∉ (lidarCallback G P s msg o).2 := by
  by_cases hr : s.b_pcld_received <;>
    simp [lidarCallback, hodo, hlook, hr]

/-- C4 witness: concrete state with odometry integration on and a failed
lookup. -/
theorem extrapolation_failure_skips_scan_witness :
    { paramsW with b_use_odometry_integration := true }.b_use_odometry_integration = true ∧
    ({ oracleW with lookupTransform := none } : ScanOracle Unit).lookupTransform = none ∧
    ((lidarCallback geomW0 { paramsW with b_use_odometry_integration := true } stateSteadyW
        msgW { oracleW with lookupTransform := none }).1.last_keyframe_pose =
       stateSteadyW.last_keyframe_pose ∧
     (lidarCallback geomW0 { paramsW with b_use_odometry_integration := true } stateSteadyW
        msgW { oracleW with lookupTransform := none }).1.b_add_first_scan_to_key =
       stateSteadyW.b_add_first_scan_to_key ∧
     (lidarCallback geomW0 { paramsW with b_use_odometry_integration := true } stateSteadyW
        msgW { oracleW with lookupTransform := none }).1.counter = stateSteadyW.counter ∧
     Effect.insertPoints ∉ (lidarCallback geomW0
        { paramsW with b_use_odometry_integration := true } stateSteadyW msgW
        { oracleW with lookupTransform := none }).2 ∧
     (∀ d, Effect.motionUpdate d ∉ (lidarCallback geomW0
        { paramsW with b_use_odometry_integration := true } stateSteadyW msgW
        { oracleW with lookupTransform := none }).2) ∧
     Effect.measurementUpdate ∉ (lidarCallback geomW0
        { paramsW with b_use_odometry_integration := true } stateSteadyW msgW
        { oracleW with lookupTransform := none }).2 ∧
     Effect.publishPoseNoUpdate ∉ (lidarCallback geomW0
        { paramsW with b_use_odometry_integration := true } stateSteadyW msgW
        { oracleW with lookupTransform := none }).2 ∧
     Effect.publishMap ∉ (lidarCallback geomW0
        { paramsW with b_use_odometry_integration := true } stateSteadyW msgW
        { oracleW with lookupTransform := none }).2) :=
  ⟨rfl, rfl, extrapolation_failure_skips_scan geomW0
    { paramsW with b_use_odometry_integration := true } stateSteadyW msgW
    { oracleW with lookupTransform := none } rfl rfl⟩

/-- C5: the map-publish counter increments once per keyframe insertion and
triggers a map publish with reset to zero exactly when it reaches the
configured threshold; in particular with threshold 3 and counter 0, three
consecutive keyframe insertions produce exactly one `PublishMap` call and
end with counter 0, and a fourth insertion starts a new cycle at counter 1. -/
theorem map_publish_counter_cycle {Pose α : Type} [LinearOrder α] [DecidableEq Pose]
    (G : Geometry Pose α) :
    (∀ (P : Params α) (s : FrontendState Pose) (o : ScanOracle Pose),
      o.updateEstimateOk = true → s.b_add_first_scan_to_key = false →
      keyframeCond G P s.last_keyframe_pose o.integratedEstimate →
      P.b_publish_map = true →
      ((processScan G P s o).1.counter =
        (if s.counter + 1 = P.map_publishment_meters then 0 else s.counter + 1)) ∧
      (Effect.publishMap ∈ (processScan G P s o).2 ↔
        s.counter + 1 = P.map_publishment_meters)) ∧
    (∀ (P : Params α) (s0 : FrontendState Pose) (o1 o2 o3 o4 : ScanOracle Pose)
       (r1 r2 r3 r4 : FrontendState Pose × List (Effect Pose)),
      P.map_publishment_meters = 3 → P.b_publish_map = true →
      s0.counter = 0 → s0.b_add_first_scan_to_key = false →
      r1 = processScan G P s0 o1 → r2 = processScan G P r1.1 o2 →
      r3 = processScan G P r2.1 o3 → r4 = processScan G P r3.1 o4 →
      o1.updateEstimateOk = true → o2.updateEstimateOk = true →
      o3.updateEstimateOk = true → o4.updateEstimateOk = true →
      keyframeCond G P s0.last_keyframe_pose o1.integratedEstimate →
      keyframeCond G P r1.1.last_keyframe_pose o2.integratedEstimate →
      keyframeCond G P r2.1.last_keyframe_pose o3.integratedEstimate →
      keyframeCond G P r3.1.last_keyframe_pose o4.integratedEstimate →
      Effect.publishMap ∉ r1.2 ∧ Effect.publishMap ∉ r2.2 ∧
      r3.2.count Effect.publishMap = 1 ∧ r3.1.counter = 0 ∧
      Effect.publishMap ∉ r4.2 ∧ r4.1.counter = 1) := by
  constructor
  · intro P s o hok hflag hc hp
    obtain ⟨-, -, hcnt, hcount⟩ := processScan_steady_insert_facts G P s o hok hflag hc hp
    refine ⟨hcnt, ⟨fun hmem => ?_, fun h => ?_⟩⟩
    · by_contra hne
      rw [if_neg hne] at hcount
      exact (List.count_eq_zero.mp hcount) hmem
    · by_contra hnotmem
      rw [if_pos h] at hcount
      have h0 := List.count_eq_zero.mpr hnotmem
      omega
  · intro P s0 o1 o2 o3 o4 r1 r2 r3 r4 hm hp h0 hflag hr1 hr2 hr3 hr4 k1 k2 k3 k4
      hc1 hc2 hc3 hc4
    obtain ⟨a1, b1, c1, d1⟩ := processScan_steady_insert_facts G P s0 o1 k1 hflag hc1 hp
    rw [← hr1] at a1 b1 c1 d1
    rw [h0, hm] at c1 d1
    norm_num at c1 d1
    obtain ⟨a2, b2, c2, d2⟩ := processScan_steady_insert_facts G P r1.1 o2 k2 a1 hc2 hp
    rw [← hr2] at a2 b2 c2 d2
    rw [c1, hm] at c2 d2
    norm_num at c2 d2
    obtain ⟨a3, b3, c3, d3⟩ := processScan_steady_insert_facts G P r2.1 o3 k3 a2 hc3 hp
    rw [← hr3] at a3 b3 c3 d3
    rw [c2, hm] at c3 d3
    norm_num at c3 d3
    obtain ⟨a4, b4, c4, d4⟩ := processScan_steady_insert_facts G P r3.1 o4 k4 a3 hc4 hp
    rw [← hr4] at a4 b4 c4 d4
    rw [c3, hm] at c4 d4
    norm_num at c4 d4
    exact ⟨List.count_eq_zero.mp d1, List.count_eq_zero.mp d2, d3, c3,
      List.count_eq_zero.mp d4, c4⟩

def runW1 : FrontendState Unit × List (Effect Unit) :=
  processScan geomW1 paramsW stateSteadyW oracleW

def runW2 : FrontendState Unit × List (Effect Unit) :=
  processScan geomW1 paramsW runW1.1 oracleW

def runW3 : FrontendState Unit × List (Effect Unit) :=
  processScan geomW1 paramsW runW2.1 oracleW

def runW4 : FrontendState Unit × List (Effect Unit) :=
  processScan geomW1 paramsW runW3.1 oracleW

/-- C5 witness: a concrete four-insertion run with threshold 3. -/
theorem map_publish_counter_cycle_witness :
    (oracleW.updateEstimateOk = true ∧ stateSteadyW.b_add_first_scan_to_key = false ∧
     keyframeCond geomW1 paramsW stateSteadyW.last_keyframe_pose oracleW.integratedEstimate ∧
     paramsW.b_publish_map = true ∧ paramsW.map_publishment_meters = 3 ∧
     stateSteadyW.counter = 0) ∧
    (((processScan geomW1 paramsW stateSteadyW oracleW).1.counter =
       (if stateSteadyW.counter + 1 = paramsW.map_publishment_meters then 0
        else stateSteadyW.counter + 1)) ∧
     (Effect.publishMap ∈ (processScan geomW1 paramsW stateSteadyW oracleW).2 ↔
       stateSteadyW.counter + 1 = paramsW.map_publishment_meters)) ∧
    (Effect.publishMap ∉ runW1.2 ∧ Effect.publishMap ∉ runW2.2 ∧
     runW3.2.count Effect.publishMap = 1 ∧ runW3.1.counter = 0 ∧
     Effect.publishMap ∉ runW4.2 ∧ runW4.1.counter = 1) :=
  ⟨⟨rfl, rfl, by decide, rfl, rfl, rfl⟩,
   (map_publish_counter_cycle geomW1).1 paramsW stateSteadyW oracleW rfl rfl (by decide) rfl,
   (map_publish_counter_cycle geomW1).2 paramsW stateSteadyW oracleW oracleW oracleW oracleW
     runW1 runW2 runW3 runW4 rfl rfl rfl rfl rfl rfl rfl rfl rfl rfl rfl rfl
     (by decide) (by decide) (by decide) (by decide)⟩

/-- C7: with external-odometry integration enabled and a successful lookup,
the very first odometry-integration cycle only records the looked-up pose as
the baseline and performs no further processing (no collaborator call except
possibly the dropped-scan warning, no KeyframeState mutation); from the
second cycle onward the delta `inverseTimes(previous, current)` is forwarded
to the scan-to-scan estimator before the estimator runs, and the stored
previous pose is updated to the current one. -/
theorem odometry_integration_cycles {Pose α : Type} [LinearOrder α]
    (G : Geometry Pose α) (P : Params α) (s : FrontendState Pose)
    (msg : ScanInput) (o : ScanOracle Pose) (p : Pose)
    (hodo : P.b_use_odometry_integration = true)
    (hlook : o.lookupTransform = some p) :
    (s.b_odometry_has_been_received = false →
      (lidarCallback G P s msg o).1.odometry_pose_previous = p ∧
      (lidarCallback G P s msg o).1.b_odometry_has_been_received = true ∧
      (lidarCallback G P s msg o).1.last_keyframe_pose = s.last_keyframe_pose ∧
      (lidarCallback G P s msg o).1.b_add_first_scan_to_key = s.b_add_first_scan_to_key ∧
      (lidarCallback G P s msg o).1.counter = s.counter ∧
      (∀ e ∈ (lidarCallback G P s msg o).2, e = Effect.warnScanDropped)) ∧
    (s.b_odometry_has_been_received = true →
      ∃ e0 tail,
        (lidarCallback G P s msg o).2 =
          e0 ++ Effect.setOdometryDelta (G.inverseTimes s.odometry_pose_previous p) :: tail ∧
        (∀ e ∈ e0, e = Effect.warnScanDropped) ∧
        Effect.updateEstimate ∈ tail ∧
        (lidarCallback G P s msg o).1.odometry_pose_previous = p) := by
  constructor
  · intro hfirst
    by_cases hr : s.b_pcld_received <;>
      simp [lidarCallback, hodo, hlook, hr, hfirst]
  · intro hsecond
    by_cases hr : s.b_pcld_received
    · refine ⟨(if msg.seq ≠ (s.pcld_seq_prev + 1) % 4294967296
          then [Effect.warnScanDropped] else []),
        (processScan G P
          { s with
            pcld_seq_prev := msg.seq,
            b_is_open_space := decide (msg.width > P.number_of_points_open_space),
            odometry_pose_previous := p } o).2, ?_, ?_, ?_, ?_⟩
      · simp [lidarCallback, hodo, hlook, hr, hsecond]
      · split_ifs <;> simp
      · exact processScan_updateEstimate_mem G P _ o
      · simp [lidarCallback, hodo, hlook, hr, hsecond, processScan_odom_prev]
    · refine ⟨[],
        (processScan G P
          { s with
            pcld_seq_prev := msg.seq,
            b_pcld_received := true,
            b_is_open_space := decide (msg.width > P.number_of_points_open_space),
            odometry_pose_previous := p } o).2, ?_, by simp, ?_, ?_⟩
      · simp [lidarCallback, hodo, hlook, hr, hsecond]
      · exact processScan_updateEstimate_mem G P _ o
      · simp [lidarCallback, hodo, hlook, hr, hsecond, processScan_odom_prev]

def paramsOdomW : Params Nat :=
  { paramsW with b_use_odometry_integration := true }

def stateOdomW : FrontendState Unit :=
  { stateSteadyW with b_odometry_has_been_received := true }

/-- C7 witness: a concrete second odometry-integration cycle. -/
theorem odometry_integration_cycles_witness :
    paramsOdomW.b_use_odometry_integration = true ∧
    oracleW.lookupTransform = some () ∧
    stateOdomW.b_odometry_has_been_received = true ∧
    (∃ e0 tail,
      (lidarCallback geomW0 paramsOdomW stateOdomW msgW oracleW).2 =
        e0 ++ Effect.setOdometryDelta
          (geomW0.inverseTimes stateOdomW.odometry_pose_previous ()) :: tail ∧
      (∀ e ∈ e0, e = Effect.warnScanDropped) ∧
      Effect.updateEstimate ∈ tail ∧
      (lidarCallback geomW0 paramsOdomW stateOdomW msgW oracleW).1.odometry_pose_previous =
        ()) :=
  ⟨rfl, rfl, rfl,
   (odometry_integration_cycles geomW0 paramsOdomW stateOdomW msgW oracleW () rfl rfl).2 rfl⟩

/-- C9: the sequence-continuity check warns exactly when the scan's sequence
number differs from the stored previous value plus one (assuming no uint32
wraparound of the increment), emits exactly one warning on a gap, always
updates the stored previous value to the current sequence number, and never
stops processing of the current scan. -/
theorem sequence_guard {Pose α : Type} [LinearOrder α] [DecidableEq Pose]
    (G : Geometry Pose α) (P : Params α) (s : FrontendState Pose)
    (msg : ScanInput) (o : ScanOracle Pose)
    (hrecv : s.b_pcld_received = true)
    (hnw : s.pcld_seq_prev + 1 < 4294967296)
    (hodo : P.b_use_odometry_integration = false) :
    ((Effect.warnScanDropped ∈ (lidarCallback G P s msg o).2) ↔
      msg.seq ≠ s.pcld_seq_prev + 1) ∧
    ((lidarCallback G P s msg o).2.count Effect.warnScanDropped =
      (if msg.seq = s.pcld_seq_prev + 1 then 0 else 1)) ∧
    (lidarCallback G P s msg o).1.pcld_seq_prev = msg.seq ∧
    Effect.setLidar ∈ (lidarCallback G P s msg o).2 := by
  have hmod : (s.pcld_seq_prev + 1) % 4294967296 = s.pcld_seq_prev + 1 :=
    Nat.mod_eq_of_lt hnw
  by_cases hgap : msg.seq = s.pcld_seq_prev + 1 <;>
    simp [lidarCallback, hodo, hrecv, hmod, hgap, processScan_no_warn,
      processScan_setLidar_mem, processScan_pcld_seq_prev, List.count_append,
      List.count_eq_zero.mpr (processScan_no_warn G P _ o)]

/-- C9 witness: consecutive sequence numbers produce no gap report. -/
theorem sequence_guard_witness :
    stateSteadyW.b_pcld_received = true ∧
    stateSteadyW.pcld_seq_prev + 1 < 4294967296 ∧
    paramsW.b_use_odometry_integration = false ∧
    (((Effect.warnScanDropped ∈ (lidarCallback geomW0 paramsW stateSteadyW msgW oracleW).2) ↔
       msgW.seq ≠ stateSteadyW.pcld_seq_prev + 1) ∧
     ((lidarCallback geomW0 paramsW stateSteadyW msgW oracleW).2.count
        Effect.warnScanDropped =
       (if msgW.seq = stateSteadyW.pcld_seq_prev + 1 then 0 else 1)) ∧
     (lidarCallback geomW0 paramsW stateSteadyW msgW oracleW).1.pcld_seq_prev = msgW.seq ∧
     Effect.setLidar ∈ (lidarCallback geomW0 paramsW stateSteadyW msgW oracleW).2) :=
  ⟨rfl, by decide, rfl,
   sequence_guard geomW0 paramsW stateSteadyW msgW oracleW rfl (by decide) rfl⟩

/-! ### `SpotFrontend::LoadParameters` (source lines 70-115)

`LoadParameters` is a straight-line sequence of parameter reads, each of
which returns `false` when the key is missing, followed by `return true` —
and then, textually after that unconditional return, the read of
`b_run_rolling_map_buffer` and the conditional call
`mapper_.SetRollingMapBufferOn()`.  To settle whether those trailing
statements can ever run, the function body is embedded as a statement list
executed under an explicit "already returned" flag, so unreachability is a
provable property rather than an artifact of the translation. -/

/-- One statement of the `LoadParameters` body. -/
inductive LPStmt where
  | getRequired (key : String)
  | getOptional (key : String)
  | returnTrue
  | getRequiredRollingFlag
  | setRollingIfFlag
  deriving DecidableEq

/-- The parameter server: which keys are present, and the value of the
`b_run_rolling_map_buffer` parameter when present. -/
structure LPEnv where
  has : String → Bool
  hasRolling : Bool
  rollingValue : Bool

/-- Execution state of `LoadParameters`: the returned value once a `return`
statement has executed, the `b_run_rolling_map_buffer_` member (set `false`
by the constructor, line 28), and whether `mapper_.SetRollingMapBufferOn()`
has been called. -/
structure LPState where
  returned : Option Bool
  b_run_rolling_map_buffer : Bool
  rollingBufferEnabled : Bool
  deriving DecidableEq

/-- Effect of a single statement on the execution state (ignoring the
already-returned flag). -/
def lpExec (env : LPEnv) (st : LPState) : LPStmt → LPState
  | LPStmt.getRequired k => if env.has k then st else { st with returned := some false }
  | LPStmt.getOptional _ => st
  | LPStmt.returnTrue => { st with returned := some true }
  | LPStmt.getRequiredRollingFlag =>
      if env.hasRolling then { st with b_run_rolling_map_buffer := env.rollingValue }
      else { st with returned := some false }
  | LPStmt.setRollingIfFlag =>
      if st.b_run_rolling_map_buffer then { st with rollingBufferEnabled := true } else st

/-- A statement runs only if no `return` has executed yet. -/
def lpStep (env : LPEnv) (st : LPState) (stmt : LPStmt) : LPState :=
  if st.returned.isSome then st else lpExec env st stmt

/-- The statements of `LoadParameters` in source order (lines 72-114):
seventeen required reads, the optional `publish_diagnostics` read, the
unconditional `return true`, and then the two trailing statements. -/
def loadParametersProgram : List LPStmt :=
  [LPStmt.getRequired "b_verbose",
   LPStmt.getRequired "translation_threshold_kf",
   LPStmt.getRequired "rotation_threshold_kf",
   LPStmt.getRequired "number_of_points_open_space",
   LPStmt.getRequired "map_publishment/meters",
   LPStmt.getRequired "map_publishment/b_publish_map",
   LPStmt.getRequired "frame_id/fixed",
   LPStmt.getRequired "frame_id/base",
   LPStmt.getRequired "frame_id/bd_odometry",
   LPStmt.getRequired "queues/lidar_queue_size",
   LPStmt.getRequired "queues/odom_queue_size",
   LPStmt.getRequired "buffers/odometry_buffer_size_limit",
   LPStmt.getRequired "data_integration/mode",
   LPStmt.getRequired "data_integration/max_number_of_calls",
   LPStmt.getRequired "b_enable_computation_time_profiling",
   LPStmt.getRequired "b_run_with_gt_point_cloud",
   LPStmt.getRequired "gt_point_cloud_filename",
   LPStmt.getOptional "publish_diagnostics",
   LPStmt.returnTrue,
   LPStmt.getRequiredRollingFlag,
   LPStmt.setRollingIfFlag]

/-- Entry state of `LoadParameters`: not yet returned, rolling flag at its
constructor value `false`, rolling-buffer mode not enabled. -/
def lpInit : LPState :=
  { returned := none, b_run_rolling_map_buffer := false, rollingBufferEnabled := false }

/-- Model of a full `LoadParameters` execution. -/
def loadParameters (env : LPEnv) : LPState :=
  loadParametersProgram.foldl (lpStep env) lpInit

/-- The flags are never touched by the reads and the return preceding the
trailing statements. -/
theorem lpStep_preserves_flags (env : LPEnv) (st : LPState) (stmt : LPStmt)
    (h : stmt ≠ LPStmt.getRequiredRollingFlag ∧ stmt ≠ LPStmt.setRollingIfFlag) :
    (lpStep env st stmt).b_run_rolling_map_buffer = st.b_run_rolling_map_buffer ∧
    (lpStep env st stmt).rollingBufferEnabled = st.rollingBufferEnabled := by
  cases stmt <;> simp_all [lpStep, lpExec] <;> split_ifs <;> simp

/-- Once a return has executed, every later statement is a no-op. -/
theorem lpStep_after_return (env : LPEnv) (st : LPState) (stmt : LPStmt)
    (h : st.returned.isSome) : lpStep env st stmt = st := by
  simp [lpStep, h]

/-- Folding flag-preserving statements keeps both flags. -/
theorem lpFoldl_preserves_flags (env : LPEnv) (l : List LPStmt)
    (hl : ∀ stmt ∈ l, stmt ≠ LPStmt.getRequiredRollingFlag ∧
      stmt ≠ LPStmt.setRollingIfFlag) (st : LPState) :
    (l.foldl (lpStep env) st).b_run_rolling_map_buffer = st.b_run_rolling_map_buffer ∧
    (l.foldl (lpStep env) st).rollingBufferEnabled = st.rollingBufferEnabled := by
  induction l generalizing st with
  | nil => exact ⟨rfl, rfl⟩
  | cons a l ih =>
    have ha := hl a (List.mem_cons_self a l)
    have hrest : ∀ stmt ∈ l, stmt ≠ LPStmt.getRequiredRollingFlag ∧
        stmt ≠ LPStmt.setRollingIfFlag := fun stmt hs => hl stmt (List.mem_cons_of_mem a hs)
    obtain ⟨h1, h2⟩ := lpStep_preserves_flags env st a ha
    obtain ⟨h3, h4⟩ := ih hrest (lpStep env st a)
    exact ⟨h3.trans h1, h4.trans h2⟩

/-- After `returnTrue` the state has returned, whatever happened before. -/
theorem lpStep_returnTrue_isSome (env : LPEnv) (st : LPState) :
    (lpStep env st LPStmt.returnTrue).returned.isSome = true := by
  by_cases h : st.returned.isSome <;> simp [lpStep, lpExec, h]

/-- C10: for every parameter environment, `LoadParameters` leaves
`b_run_rolling_map_buffer_` at its constructor value `false` and never calls
`mapper_.SetRollingMapBufferOn()`, because the statements loading that
parameter and enabling the rolling map buffer lie after the unconditional
`return true` and are unreachable. -/
theorem rolling_map_buffer_unreachable (env : LPEnv) :
    (loadParameters env).b_run_rolling_map_buffer = false ∧
    (loadParameters env).rollingBufferEnabled = false := by
  have hsplit : loadParametersProgram =
      loadParametersProgram.take 18 ++ [LPStmt.returnTrue] ++
      [LPStmt.getRequiredRollingFlag, LPStmt.setRollingIfFlag] := rfl
  rw [loadParameters, hsplit, List.foldl_append, List.foldl_append]
  have hflagsPre0 : ((loadParametersProgram.take 18).foldl (lpStep env)
        lpInit).b_run_rolling_map_buffer = false ∧
      ((loadParametersProgram.take 18).foldl (lpStep env)
        lpInit).rollingBufferEnabled = false := by
    have := lpFoldl_preserves_flags env (loadParametersProgram.take 18) (by decide) lpInit
    simpa [lpInit] using this
  generalize hpre : (loadParametersProgram.take 18).foldl (lpStep env) lpInit = stPre
  rw [hpre] at hflagsPre0
  have hflagsPre : stPre.b_run_rolling_map_buffer = false ∧
      stPre.rollingBufferEnabled = false := hflagsPre0
  have hret : (List.foldl (lpStep env) stPre [LPStmt.returnTrue]).returned.isSome = true := by
    simpa using lpStep_returnTrue_isSome env stPre
  generalize hmid : List.foldl (lpStep env) stPre [LPStmt.returnTrue] = stMid
  rw [hmid] at hret
  have hflagsMid : stMid.b_run_rolling_map_buffer = false ∧
      stMid.rollingBufferEnabled = false := by
    rw [← hmid]
    have := lpFoldl_preserves_flags env [LPStmt.returnTrue] (by decide) stPre
    simp only [this.1, this.2]
    exact hflagsPre
  have h1 := lpStep_after_return env stMid LPStmt.getRequiredRollingFlag hret
  simp only [List.foldl_cons, List.foldl_nil, h1]
  have h2 := lpStep_after_return env stMid LPStmt.setRollingIfFlag hret
  rw [h2]
  exact hflagsMid

end SpotFrontend
